import Mathlib

/-!
Shallow embedding of `src/words_and_linguistics/spell.cpp` (the `spell_utilities`
namespace and the `Spell` class), together with theorems checking the
specification's claims about it.

C++ `std::string` is modelled as Lean `String` (in this toolchain a wrapper
around `List Char`), C++ `int` as `Int` (with `Int.tmod` / `Int.tdiv` for the
C truncating `%` and `/`), and a C++ function that throws as a function
returning the unchanged object state together with an `Option` error message.
-/

/-- The ten ASCII digit characters; used to state "digits only" hypotheses. -/
def digit_chars : List Char := ['0', '1', '2', '3', '4', '5', '6', '7', '8', '9']

/-- The C++ expression `c - '0'` on a character, as a (possibly negative) integer. -/
def char_digit (c : Char) : Int := (c.toNat : Int) - 48

/-- `spell_utilities::word_for_ones` (spell.cpp lines 33-36). -/
def word_for_ones : List String :=
  ["", "one", "two", "three", "four", "five", "six", "seven", "eight", "nine"]

/-- `spell_utilities::word_for_teens` (spell.cpp lines 38-41); index 0 is unused. -/
def word_for_teens : List String :=
  ["", "eleven", "twelve", "thirteen", "fourteen", "fifteen", "sixteen",
   "seventeen", "eighteen", "nineteen"]

/-- `spell_utilities::word_for_tens` (spell.cpp lines 43-46). -/
def word_for_tens : List String :=
  ["", "ten", "twenty", "thirty", "forty", "fifty", "sixty", "seventy",
   "eighty", "ninety"]

/-- `spell_utilities::name_for_big_numbers` (spell.cpp lines 48-59); 34 entries,
index 0 is the empty name for the units group. -/
def name_for_big_numbers : List String :=
  ["", "thousand", "million", "billion", "trillion", "quadrillion",
   "quintillion", "sextillion", "septillion", "octillion", "nonillion",
   "decillion", "undecillion", "duodecillion", "tredecillion",
   "quattuordecillion", "quindecillion", "sexdecillion", "septendecillion",
   "octodecillion", "novemdecillion", "vigintillion", "unvigintillion",
   "duovigintillion", "trevigintillion", "quattuorvigintillion",
   "quinvigintillion", "sexvigintillion", "septenvigintillion",
   "octovigintillion", "novemvigintillion", "trigintillion",
   "untrigintillion", "duotrigintillion"]

/-- `spell_utilities::MAX_DIGITS_ALLOWED = 99 + 2 + 1` (spell.cpp line 61). -/
def MAX_DIGITS_ALLOWED : Nat := 99 + 2 + 1

/-- `spell_utilities::string_to_integer` (spell.cpp lines 63-76): positional
value of a 1-, 2- or 3-character digit string, 0 for any other length. -/
def string_to_integer (input : String) : Int :=
  if input.length = 3 then
    char_digit (input.data.getD 0 ' ') * 100
      + char_digit (input.data.getD 1 ' ') * 10
      + char_digit (input.data.getD 2 ' ') * 1
  else if input.length = 2 then
    char_digit (input.data.getD 0 ' ') * 10
      + char_digit (input.data.getD 1 ' ') * 1
  else if input.length = 1 then
    char_digit (input.data.getD 0 ' ') * 1
  else 0

/-- `spell_utilities::integer_to_string` (spell.cpp lines 78-84): `snprintf`
with `%d` of a value that is at most 3 decimal digits in every reachable call. -/
def integer_to_string (input : Int) : String := toString input

/-- `spell_utilities::is_valid_number` (spell.cpp lines 86-102): non-empty,
every character a digit (the C++ loop returns false at the first character
with `c - '0'` outside 0..9), and length at most `MAX_DIGITS_ALLOWED`. -/
def is_valid_number (input : String) : Bool :=
  if input.data.isEmpty then false
  else if input.data.any (fun c => decide (char_digit c < 0) || decide (char_digit c > 9)) then
    false
  else if input.length > MAX_DIGITS_ALLOWED then false
  else true

/-- Consecutive windows of (at most) 3 characters, as produced by the loop
`for (i = 0; i < size; i += 3) push_back(substr(i, 3))` in
`split_number_to_buckets_of_3_digits` (spell.cpp lines 116-120). -/
def chunk3 : List Char → List (List Char)
  | [] => []
  | [a] => [[a]]
  | [a, b] => [[a, b]]
  | a :: b :: c :: rest => [a, b, c] :: chunk3 rest

/-- `spell_utilities::split_number_to_buckets_of_3_digits` (spell.cpp lines
104-123): left-pad with `"0"` when `pad == 1` and `"00"` when `pad == 2`
(when `pad == 3`, i.e. the length is a multiple of 3, nothing is prepended),
slice into 3-character buckets, and return the buckets with their count. -/
def split_number_to_buckets_of_3_digits (input : String) : List String × Nat :=
  let bkt_length : Nat := 3
  let pad := bkt_length - (input.length % bkt_length)
  let adjusted_input :=
    (if pad = 1 then "0" else if pad = 2 then "00" else "") ++ input
  let bucket := (chunk3 adjusted_input.data).map String.mk
  (bucket, bucket.length)

/-- `spell_utilities::number_constraints` (spell.cpp lines 125-133). -/
def number_constraints : String :=
  "Number must be a non-zero positive integer, should not exceed "
    ++ toString MAX_DIGITS_ALLOWED
    ++ " digits and may contain commas as digits separator"

/-- The three private members of the `Spell` class (spell.cpp lines 149-154). -/
structure SpellState where
  number_in_digits : String
  number_in_words : String
  number_in_words_and_digits : String
deriving DecidableEq, Repr

/-- The sanitization performed at the start of `Spell::set_number_in_digits`
(spell.cpp lines 186-197): remove every comma, then erase the longest prefix
of `'0'` characters (`erase(0, find_first_not_of('0'))`; erasing everything
when no other character exists). -/
def sanitize (given_number_in_digits : String) : String :=
  let no_commas := given_number_in_digits.data.filter (fun c => c != ',')
  String.mk (no_commas.dropWhile (fun c => c == '0'))

/-- `Spell::set_number_in_digits` (spell.cpp lines 185-204): sanitize, throw
`runtime_error(number_constraints())` when invalid (leaving the object
untouched), otherwise store the sanitized string in `_number_in_digits`. -/
def set_number_in_digits (st : SpellState) (given_number_in_digits : String) :
    SpellState × Option String :=
  let sanitized_number := sanitize given_number_in_digits
  if !(is_valid_number sanitized_number) then
    (st, some number_constraints)
  else
    ({ st with number_in_digits := sanitized_number }, none)

/-- The `Spell` constructor (spell.cpp lines 173-177): word members start
empty, then `set_number_in_digits` runs; a throw aborts construction. -/
def mk_spell (given_number_in_digits : String) : Option SpellState :=
  let r := set_number_in_digits
    { number_in_digits := "", number_in_words := "", number_in_words_and_digits := "" }
    given_number_in_digits
  match r.2 with
  | some _ => none
  | none => some r.1

/-- The loop body of `Spell::do_spell` (spell.cpp lines 260-297), one
recursive step per bucket.  The arguments after the bucket list are
`big_number`, `show_big_number_name`, `_number_in_words`, and
`_number_in_words_and_digits`; each `let` re-binding mirrors one mutation of
the corresponding C++ variable. -/
def do_spell_loop : List String → Nat → Bool → String → String → String × String
  | [], _, _, words, words_and_digits => (words, words_and_digits)
  | b :: rest, big_number, show_big_number_name, words, words_and_digits =>
    let number_from_bucket := string_to_integer b
    let show_big_number_name :=
      if number_from_bucket ≠ 0 then true else show_big_number_name
    let words_and_digits :=
      if number_from_bucket ≠ 0 then
        words_and_digits ++ integer_to_string number_from_bucket ++ " "
      else words_and_digits
    let words :=
      if number_from_bucket > 99 then
        words ++ word_for_ones.getD (char_digit (b.data.headD ' ')).toNat "" ++ " "
          ++ "hundred" ++ " "
      else words
    let number_from_bucket := number_from_bucket.tmod 100
    let words :=
      if 10 < number_from_bucket ∧ number_from_bucket < 20 then
        words ++ word_for_teens.getD (number_from_bucket - 10).toNat "" ++ " "
      else if number_from_bucket ≥ 10 then
        words ++ word_for_tens.getD (number_from_bucket.tdiv 10).toNat "" ++ " "
      else words
    let number_from_bucket :=
      if 10 < number_from_bucket ∧ number_from_bucket < 20 then (0 : Int)
      else number_from_bucket
    let number_from_bucket := number_from_bucket.tmod 10
    let words :=
      if 0 < number_from_bucket ∧ number_from_bucket < 10 then
        words ++ word_for_ones.getD number_from_bucket.toNat "" ++ " "
      else words
    let words :=
      if show_big_number_name then
        words ++ name_for_big_numbers.getD big_number "" ++ " "
      else words
    let words_and_digits :=
      if show_big_number_name then
        words_and_digits ++ name_for_big_numbers.getD big_number "" ++ " "
      else words_and_digits
    let show_big_number_name :=
      if show_big_number_name then false else show_big_number_name
    do_spell_loop rest (big_number - 1) show_big_number_name words words_and_digits

/-- `Spell::do_spell` (spell.cpp lines 249-300): reset both word members,
split `_number_in_digits` into buckets, and run the loop with
`big_number = allocated_buckets - 1` and the flag initially false. -/
def do_spell (st : SpellState) : SpellState :=
  let r := split_number_to_buckets_of_3_digits st.number_in_digits
  let bucket := r.1
  let allocated_buckets := r.2
  let p := do_spell_loop bucket (allocated_buckets - 1) false "" ""
  { st with number_in_words := p.1, number_in_words_and_digits := p.2 }

/-- The word fragment a single bucket contributes to `_number_in_words`
inside one iteration of the `do_spell` loop, before the scale name: the
hundreds phrase (spell.cpp lines 268-271), then the teens-or-tens phrase
(lines 275-282), then the ones phrase (lines 286-288).  The lemma
`do_spell_loop_cons` proves that the loop appends exactly this fragment. -/
def group_words (b : String) : String :=
  let n0 := string_to_integer b
  let hundreds_part :=
    if n0 > 99 then
      word_for_ones.getD (char_digit (b.data.headD ' ')).toNat "" ++ " "
        ++ "hundred" ++ " "
    else ""
  let n1 := n0.tmod 100
  let tens_part :=
    if 10 < n1 ∧ n1 < 20 then word_for_teens.getD (n1 - 10).toNat "" ++ " "
    else if n1 ≥ 10 then word_for_tens.getD (n1.tdiv 10).toNat "" ++ " "
    else ""
  let n2 := if 10 < n1 ∧ n1 < 20 then (0 : Int) else n1
  let n3 := n2.tmod 10
  let ones_part :=
    if 0 < n3 ∧ n3 < 10 then word_for_ones.getD n3.toNat "" ++ " " else ""
  hundreds_part ++ (tens_part ++ ones_part)

/-! ### Basic facts about digit characters and the lookup tables -/

lemma digit_char_bounds : ∀ c ∈ digit_chars, 0 ≤ char_digit c ∧ char_digit c ≤ 9 := by
  decide

lemma digit_char_pos : ∀ c ∈ digit_chars, c ≠ '0' → 1 ≤ char_digit c := by
  decide

lemma digit_char_ne_comma : ∀ c ∈ digit_chars, (c != ',') = true := by
  decide

lemma digit_char_check : ∀ c ∈ digit_chars,
    (decide (char_digit c < 0) || decide (char_digit c > 9)) = false := by
  decide

/-! ### Facts about `chunk3` -/

lemma chunk3_flatten (l : List Char) : (chunk3 l).flatten = l := by
  induction l using chunk3.induct <;> simp [chunk3, *]

lemma chunk3_length (l : List Char) (h : l.length % 3 = 0) :
    (chunk3 l).length = l.length / 3 := by
  induction l using chunk3.induct <;> simp_all [chunk3] <;> omega

lemma chunk3_mem_length (l : List Char) (h : l.length % 3 = 0) :
    ∀ b ∈ chunk3 l, b.length = 3 := by
  induction l using chunk3.induct with
  | case1 => simp [chunk3]
  | case2 a => simp at h
  | case3 a b => simp at h
  | case4 a b c rest ih =>
      intro x hx
      simp only [chunk3, List.mem_cons] at hx
      rcases hx with rfl | hx
      · rfl
      · exact ih (by simp at h ⊢; omega) x hx

/-- The effective padding prefix of `split_number_to_buckets_of_3_digits` is
`(3 - (len % 3)) % 3` zero characters (the `pad == 3` case prepends nothing). -/
lemma pad_prefix_data (n : Nat) :
    (if 3 - n % 3 = 1 then "0" else if 3 - n % 3 = 2 then "00" else "" : String).data
      = List.replicate ((3 - n % 3) % 3) '0' := by
  have h3 : n % 3 = 0 ∨ n % 3 = 1 ∨ n % 3 = 2 := by omega
  rcases h3 with h | h | h <;> simp [h]

/-! ### Facts about `sanitize` and `is_valid_number` -/

lemma dropWhile_zero_spec (l : List Char) (h : ∃ c ∈ l, c ≠ '0') :
    l.dropWhile (fun c => c == '0') ≠ [] ∧
      (l.dropWhile (fun c => c == '0')).headD ' ' ≠ '0' := by
  induction l with
  | nil => simp at h
  | cons a t ih =>
      rw [List.dropWhile_cons]
      by_cases ha : a = '0'
      · subst ha
        simp only [beq_self_eq_true, if_true]
        apply ih
        rcases h with ⟨c, hc, hne⟩
        rcases List.mem_cons.mp hc with rfl | hc
        · exact absurd rfl hne
        · exact ⟨c, hc, hne⟩
      · rw [if_neg (by simpa using ha)]
        exact ⟨by simp, by simpa using ha⟩

/-- Sanitizing a comma-free digit string with a nonzero leading digit is the
identity. -/
lemma sanitize_digits (D : String) (hd : ∀ c ∈ D.data, c ∈ digit_chars)
    (hne : D.data ≠ []) (hhead : D.data.headD ' ' ≠ '0') : sanitize D = D := by
  have hfil : D.data.filter (fun c => c != ',') = D.data :=
    List.filter_eq_self.mpr fun a ha => digit_char_ne_comma a (hd a ha)
  cases hD : D.data with
  | nil => exact absurd hD hne
  | cons a t =>
      rw [hD] at hhead
      simp only [List.headD_cons] at hhead
      have hlist : (D.data.filter (fun c => c != ',')).dropWhile (fun c => c == '0')
          = D.data := by
        rw [hfil, hD, List.dropWhile_cons, if_neg (by simpa using hhead)]
      apply String.ext
      show ((D.data.filter (fun c => c != ',')).dropWhile (fun c => c == '0')) = D.data
      exact hlist

lemma is_valid_number_of_digits (s : String) (hd : ∀ c ∈ s.data, c ∈ digit_chars)
    (hne : s.data ≠ []) (hlen : s.length ≤ MAX_DIGITS_ALLOWED) :
    is_valid_number s = true := by
  have hany : s.data.any (fun c => decide (char_digit c < 0) || decide (char_digit c > 9))
      = false := by
    rw [List.any_eq_false]
    intro c hc
    simp [digit_char_check c (hd c hc)]
  unfold is_valid_number
  rw [if_neg (by simpa using hne), if_neg (by simp [hany]), if_neg (by omega)]

lemma is_valid_number_too_long (s : String) (hlen : MAX_DIGITS_ALLOWED < s.length) :
    is_valid_number s = false := by
  unfold is_valid_number
  have hdne : s.data ≠ [] := by
    intro h
    rw [show s.length = s.data.length from rfl, h] at hlen
    exact Nat.not_lt_zero _ hlen
  have hne : s.data.isEmpty = false := by
    cases hD : s.data with
    | nil => exact absurd hD hdne
    | cons a t => rfl
  rw [if_neg (by simp [hne])]
  by_cases hany : s.data.any (fun c => decide (char_digit c < 0) || decide (char_digit c > 9)) = true
  · rw [if_pos hany]
  · rw [if_neg hany, if_pos (by omega)]

lemma do_spell_loop_zero (b : String) (rest : List String) (big : Nat)
    (words wnd : String) (h : string_to_integer b = 0) :
    do_spell_loop (b :: rest) big false words wnd
      = do_spell_loop rest (big - 1) false words wnd := by
  simp only [do_spell_loop, h]
  norm_num

lemma do_spell_loop_nonzero (b : String) (rest : List String) (big : Nat)
    (words wnd : String) (h : string_to_integer b ≠ 0) :
    do_spell_loop (b :: rest) big false words wnd
      = do_spell_loop rest (big - 1) false
          (words ++ (group_words b ++ (name_for_big_numbers.getD big "" ++ " ")))
          (wnd ++ (integer_to_string (string_to_integer b) ++ " "
            ++ (name_for_big_numbers.getD big "" ++ " "))) := by
  simp only [do_spell_loop, group_words, h]
  norm_num
  split_ifs <;>
    simp_all [String.append_assoc, String.append_empty, String.empty_append]

lemma do_spell_loop_len_mono (bs : List String) :
    ∀ (big : Nat) (sh : Bool) (w x : String),
      w.length ≤ (do_spell_loop bs big sh w x).1.length ∧
        x.length ≤ (do_spell_loop bs big sh w x).2.length := by
  induction bs with
  | nil => intro big sh w x; simp [do_spell_loop]
  | cons b rest ih =>
      intro big sh w x
      simp only [do_spell_loop]
      refine ⟨le_trans ?_ (ih _ _ _ _).1, le_trans ?_ (ih _ _ _ _).2⟩ <;>
        (split_ifs <;> simp [String.length_append] <;> omega)

lemma char_digit_zero : char_digit '0' = 0 := rfl

lemma string_to_integer_mk3 (a b c : Char) :
    string_to_integer (String.mk [a, b, c])
      = char_digit a * 100 + char_digit b * 10 + char_digit c * 1 := rfl

lemma first_bucket_pos (S : String) (hd : ∀ c ∈ S.data, c ∈ digit_chars)
    (hne : S.data ≠ []) (hhead : S.data.headD ' ' ≠ '0') :
    ∃ b rest, (split_number_to_buckets_of_3_digits S).1 = b :: rest ∧
      0 < string_to_integer b := by
  rcases hD : S.data with _ | ⟨d, t⟩
  · exact absurd hD hne
  have hdd : d ∈ digit_chars := hd d (by rw [hD]; exact List.mem_cons_self _ _)
  have hdpos : 1 ≤ char_digit d :=
    digit_char_pos d hdd (by rw [hD] at hhead; simpa using hhead)
  have hlen : S.length = t.length + 1 := by
    rw [show S.length = S.data.length from rfl, hD]; rfl
  have hm : S.length % 3 = 0 ∨ S.length % 3 = 1 ∨ S.length % 3 = 2 := by omega
  rcases hm with h | h | h
  · -- pad = 3: no prefix; S.data = d :: e :: f :: t''
    rcases ht : t with _ | ⟨e, t'⟩
    · exfalso; rw [ht] at hlen; simp at hlen; omega
    rcases ht' : t' with _ | ⟨f, t''⟩
    · exfalso; rw [ht, ht'] at hlen; simp at hlen; omega
    have he : e ∈ digit_chars := hd e (by rw [hD, ht]; simp)
    have hf : f ∈ digit_chars := hd f (by rw [hD, ht, ht']; simp)
    refine ⟨String.mk [d, e, f], (chunk3 t'').map String.mk, ?_, ?_⟩
    · simp only [split_number_to_buckets_of_3_digits, h]
      norm_num
      rw [hD, ht, ht']
      simp [chunk3]
    · rw [string_to_integer_mk3]
      have := digit_char_bounds e he
      have := digit_char_bounds f hf
      omega
  · -- pad = 2: prefix "00"
    refine ⟨String.mk ['0', '0', d], (chunk3 t).map String.mk, ?_, ?_⟩
    · simp only [split_number_to_buckets_of_3_digits, h]
      norm_num
      rw [hD]
      simp [chunk3]
    · rw [string_to_integer_mk3, char_digit_zero]
      omega
  · -- pad = 1: prefix "0"; t nonempty
    rcases ht : t with _ | ⟨e, t'⟩
    · exfalso; rw [ht] at hlen; simp at hlen; omega
    have he : e ∈ digit_chars := hd e (by rw [hD, ht]; simp)
    refine ⟨String.mk ['0', d, e], (chunk3 t').map String.mk, ?_, ?_⟩
    · simp only [split_number_to_buckets_of_3_digits, h]
      norm_num
      rw [hD, ht]
      simp [chunk3]
    · rw [string_to_integer_mk3, char_digit_zero]
      have := digit_char_bounds e he
      omega

lemma set_number_valid (st : SpellState) (s : String)
    (h : is_valid_number (sanitize s) = true) :
    set_number_in_digits st s = ({ st with number_in_digits := sanitize s }, none) := by
  simp [set_number_in_digits, h]

lemma set_number_invalid (st : SpellState) (s : String)
    (h : is_valid_number (sanitize s) = false) :
    set_number_in_digits st s = (st, some number_constraints) := by
  simp [set_number_in_digits, h]

/-! ### Claims -/

/-- C1, counterexample: the 102-digit normalized digit string `1` followed by
101 zeros is accepted by `set_number_in_digits` (no error is raised), refuting
the claim that every normalized digit string of 102 or more digits raises the
`InvalidNumber` error. -/
theorem C1_counterexample :
    (String.mk ('1' :: List.replicate 101 '0')).length = 102 ∧
    (∀ c ∈ (String.mk ('1' :: List.replicate 101 '0')).data, c ∈ digit_chars) ∧
    (String.mk ('1' :: List.replicate 101 '0')).data.headD ' ' ≠ '0' ∧
    (set_number_in_digits ⟨"", "", ""⟩ (String.mk ('1' :: List.replicate 101 '0'))).2
      = none := by
  exact ⟨by decide, by decide, by decide, by decide⟩

/-- C1, amended: validation enforces a maximum of `MAX_DIGITS_ALLOWED = 102`
digits: every normalized digit string (digits only, nonzero leading digit) of
at most 102 digits is accepted by `set_number_in_digits` and stored unchanged,
and every such string of 103 or more digits raises the `InvalidNumber` error. -/
theorem C1_max_digits (D : String) (hd : ∀ c ∈ D.data, c ∈ digit_chars)
    (hne : D.data ≠ []) (hhead : D.data.headD ' ' ≠ '0') (st : SpellState) :
    (D.length ≤ MAX_DIGITS_ALLOWED →
      set_number_in_digits st D = ({ st with number_in_digits := D }, none)) ∧
    (MAX_DIGITS_ALLOWED < D.length →
      set_number_in_digits st D = (st, some number_constraints)) := by
  have hs : sanitize D = D := sanitize_digits D hd hne hhead
  constructor
  · intro hlen
    rw [set_number_valid st D (by rw [hs]; exact is_valid_number_of_digits D hd hne hlen), hs]
  · intro hlen
    exact set_number_invalid st D (by rw [hs]; exact is_valid_number_too_long D hlen)

/-- C1, witness: a 3-digit string is accepted, a 103-digit string is rejected. -/
theorem C1_max_digits_witness :
    set_number_in_digits ⟨"", "", ""⟩ "123" = (⟨"123", "", ""⟩, none) ∧
    set_number_in_digits ⟨"", "", ""⟩ (String.mk ('1' :: List.replicate 102 '0'))
      = (⟨"", "", ""⟩, some number_constraints) := by
  constructor
  · exact (C1_max_digits "123" (by decide) (by decide) (by decide) _).1 (by decide)
  · exact (C1_max_digits (String.mk ('1' :: List.replicate 102 '0'))
      (by decide) (by decide) (by decide) _).2 (by decide)

/-- C2, counterexample: spelling `"14"` produces `"fourteen  "` and `"14  "`
(two trailing spaces each), not `"fourteen "` and `"14 "`: after the final
group's word fragment the loop still appends the index-0 scale name (the
empty string) plus a separator space. -/
theorem C2_counterexample :
    (do_spell ⟨"14", "", ""⟩).number_in_words = "fourteen  " ∧
    (do_spell ⟨"14", "", ""⟩).number_in_words ≠ "fourteen " ∧
    (do_spell ⟨"14", "", ""⟩).number_in_words_and_digits = "14  " ∧
    (do_spell ⟨"14", "", ""⟩).number_in_words_and_digits ≠ "14 " := by
  exact ⟨rfl, by decide, rfl, by decide⟩

/-- C2, amended: for every nonzero final (scale index 0) group, the assembler
appends the scale name for index 0 — the empty string — followed by one
separator space to both outputs after that group's fragment, so each output
gains exactly one extra trailing space; spelling `"14"` yields words
`"fourteen  "` and words-and-digits `"14  "` (two trailing spaces each). -/
theorem C2_scale_index_zero :
    (∀ (b words wnd : String), string_to_integer b ≠ 0 →
      do_spell_loop [b] 0 false words wnd
        = (words ++ (group_words b ++ (name_for_big_numbers.getD 0 "" ++ " ")),
           wnd ++ (integer_to_string (string_to_integer b) ++ " "
             ++ (name_for_big_numbers.getD 0 "" ++ " ")))) ∧
    name_for_big_numbers.getD 0 "" = "" ∧
    mk_spell "14" = some ⟨"14", "", ""⟩ ∧
    (do_spell ⟨"14", "", ""⟩).number_in_words = "fourteen  " ∧
    (do_spell ⟨"14", "", ""⟩).number_in_words_and_digits = "14  " := by
  refine ⟨?_, rfl, rfl, rfl, rfl⟩
  intro b words wnd h
  rw [do_spell_loop_nonzero b [] 0 words wnd h]
  rfl

/-- C2, witness: the loop on the single nonzero bucket `"014"` at scale
index 0 appends the fragment plus the lone separator space. -/
theorem C2_scale_index_zero_witness :
    do_spell_loop ["014"] 0 false "" "" = ("fourteen  ", "14  ") := by
  rw [C2_scale_index_zero.1 "014" "" "" (by decide)]
  decide

/-- C3: for every valid digit string (1..101 digits, digits only, not all
zeros) the constructor succeeds on it and, after `do_spell`, both
`number_in_words` and `number_in_words_and_digits` are non-empty.
(`do_spell` is a total Lean function, so termination is by construction.) -/
theorem C3_spell_nonempty (D : String) (hd : ∀ c ∈ D.data, c ∈ digit_chars)
    (hlen1 : 1 ≤ D.length) (hlen2 : D.length ≤ 101)
    (hnz : ∃ c ∈ D.data, c ≠ '0') :
    ∃ st : SpellState, mk_spell D = some st ∧
      (do_spell st).number_in_words ≠ "" ∧
      (do_spell st).number_in_words_and_digits ≠ "" := by
  have hfil : D.data.filter (fun c => c != ',') = D.data :=
    List.filter_eq_self.mpr fun a ha => digit_char_ne_comma a (hd a ha)
  have h1 : sanitize D
      = String.mk ((D.data.filter (fun c => c != ',')).dropWhile (fun c => c == '0')) := rfl
  rw [hfil] at h1
  obtain ⟨hne', hhead'⟩ := dropWhile_zero_spec D.data hnz
  have hSd : (sanitize D).data = D.data.dropWhile (fun c => c == '0') := by rw [h1]
  have hSne : (sanitize D).data ≠ [] := by rw [hSd]; exact hne'
  have hShead : (sanitize D).data.headD ' ' ≠ '0' := by rw [hSd]; exact hhead'
  have hsub : List.Sublist ((sanitize D).data) D.data := by
    rw [hSd]; exact List.dropWhile_sublist _
  have hSdig : ∀ c ∈ (sanitize D).data, c ∈ digit_chars := fun c hc => hd c (hsub.subset hc)
  have hSlen : (sanitize D).length ≤ MAX_DIGITS_ALLOWED := by
    have hl := hsub.length_le
    rw [show (sanitize D).length = (sanitize D).data.length from rfl]
    rw [show D.length = D.data.length from rfl] at hlen2
    unfold MAX_DIGITS_ALLOWED
    omega
  have hvalid : is_valid_number (sanitize D) = true :=
    is_valid_number_of_digits _ hSdig hSne hSlen
  refine ⟨⟨sanitize D, "", ""⟩, ?_, ?_, ?_⟩
  · simp [mk_spell, set_number_valid _ _ hvalid]
  all_goals
    obtain ⟨b, rest, hb, hpos⟩ := first_bucket_pos (sanitize D) hSdig hSne hShead
    have hlen01 : ∀ s : String, 1 ≤ s.length → s ≠ "" := by
      intro s hls hs
      rw [hs] at hls
      exact absurd hls (by decide)
    apply hlen01
    simp only [do_spell]
    rw [hb, do_spell_loop_nonzero b rest _ "" "" (by omega)]
  · refine le_trans ?_ (do_spell_loop_len_mono rest _ _ _ _).1
    simp only [String.length_append, show (" " : String).length = 1 from rfl,
      show ("" : String).length = 0 from rfl]
    omega
  · refine le_trans ?_ (do_spell_loop_len_mono rest _ _ _ _).2
    simp only [String.length_append, show (" " : String).length = 1 from rfl,
      show ("" : String).length = 0 from rfl]
    omega

/-- C3, witness: the single-digit valid string `"7"`. -/
theorem C3_spell_nonempty_witness :
    ∃ st : SpellState, mk_spell "7" = some st ∧
      (do_spell st).number_in_words ≠ "" ∧
      (do_spell st).number_in_words_and_digits ≠ "" :=
  C3_spell_nonempty "7" (by decide) (by decide) (by decide) (by decide)

/-- C4: a bucket whose value is 0 contributes nothing at all to either output
(the loop step leaves both accumulators untouched), and spelling
`"1,000,000"` produces exactly `"one million "` and `"1 million "`. -/
theorem C4_zero_groups_silent :
    (∀ (b : String) (rest : List String) (big : Nat) (words wnd : String),
      string_to_integer b = 0 →
      do_spell_loop (b :: rest) big false words wnd
        = do_spell_loop rest (big - 1) false words wnd) ∧
    mk_spell "1,000,000" = some ⟨"1000000", "", ""⟩ ∧
    (do_spell ⟨"1000000", "", ""⟩).number_in_words = "one million " ∧
    (do_spell ⟨"1000000", "", ""⟩).number_in_words_and_digits = "1 million " :=
  ⟨fun b rest big words wnd h => do_spell_loop_zero b rest big words wnd h,
   rfl, rfl, rfl⟩

/-- C4, witness: the zero bucket `"000"` is silent at any position. -/
theorem C4_zero_groups_silent_witness :
    do_spell_loop ["000"] 5 false "abc " "xyz " = ("abc ", "xyz ") := by
  rw [C4_zero_groups_silent.1 "000" [] 5 "abc " "xyz " (by decide)]
  rfl

/-- C5: when a group's value mod 100 is in 11..19 the fragment is the hundreds
phrase followed by the single irregular teen word (no separate ones word),
and when the value mod 100 is exactly 10 the fragment uses the tens table
entry 1, which is `"ten"` (the teens table entry 0 is the unused `""`). -/
theorem C5_teens_and_ten (b : String) :
    (11 ≤ (string_to_integer b).tmod 100 → (string_to_integer b).tmod 100 ≤ 19 →
      group_words b
        = (if string_to_integer b > 99 then
            word_for_ones.getD (char_digit (b.data.headD ' ')).toNat "" ++ " "
              ++ "hundred" ++ " "
          else "")
          ++ word_for_teens.getD ((string_to_integer b).tmod 100 - 10).toNat "" ++ " ") ∧
    ((string_to_integer b).tmod 100 = 10 →
      group_words b
        = (if string_to_integer b > 99 then
            word_for_ones.getD (char_digit (b.data.headD ' ')).toNat "" ++ " "
              ++ "hundred" ++ " "
          else "")
          ++ word_for_tens.getD 1 "" ++ " ") ∧
    word_for_tens.getD 1 "" = "ten" ∧
    word_for_teens.getD 0 "" = "" := by
  refine ⟨?_, ?_, rfl, rfl⟩
  · intro h1 h2
    have hc : 10 < (string_to_integer b).tmod 100 ∧ (string_to_integer b).tmod 100 < 20 :=
      ⟨by omega, by omega⟩
    have h0 : ¬ (0 < (0 : Int).tmod 10 ∧ (0 : Int).tmod 10 < 10) := by decide
    simp only [group_words, if_pos hc, if_neg h0, String.append_empty]
    simp [String.append_assoc]
  · intro h10
    have hc : ¬ (10 < (string_to_integer b).tmod 100 ∧ (string_to_integer b).tmod 100 < 20) := by
      omega
    have hge : (string_to_integer b).tmod 100 ≥ 10 := by omega
    have h0 : ¬ (0 < ((string_to_integer b).tmod 100).tmod 10
        ∧ ((string_to_integer b).tmod 100).tmod 10 < 10) := by
      rw [h10]; decide
    simp only [group_words, if_neg hc, if_pos hge, if_neg h0, String.append_empty, h10]
    simp [String.append_assoc]

/-- C5, witness: group `"014"` spells `"fourteen "`, group `"010"` spells
`"ten "`. -/
theorem C5_teens_and_ten_witness :
    group_words "014" = "fourteen " ∧ group_words "010" = "ten " := by
  constructor
  · rw [(C5_teens_and_ten "014").1 (by decide) (by decide)]
    decide
  · rw [(C5_teens_and_ten "010").2.1 (by decide)]
    decide

/-- C6: for a non-empty digit string the grouper returns the group count as
its second component, produces `ceil(len/3) = (len+2)/3` groups of exactly 3
characters each, and their concatenation (most significant group first) is
`(3 - len % 3) % 3` zero characters prepended to the input. -/
theorem C6_grouper (s : String) (hd : ∀ c ∈ s.data, c ∈ digit_chars)
    (hne : s ≠ "") :
    (split_number_to_buckets_of_3_digits s).2
        = (split_number_to_buckets_of_3_digits s).1.length ∧
    (split_number_to_buckets_of_3_digits s).1.length = (s.length + 2) / 3 ∧
    (∀ b ∈ (split_number_to_buckets_of_3_digits s).1, b.length = 3) ∧
    ((split_number_to_buckets_of_3_digits s).1.map String.data).flatten
        = List.replicate ((3 - s.length % 3) % 3) '0' ++ s.data := by
  have hsd : s.data ≠ [] := fun h => hne (String.ext h)
  have hn1 : 1 ≤ s.data.length := by
    cases hsd' : s.data with
    | nil => exact absurd hsd' hsd
    | cons a t => simp
  have hpd : (if 3 - s.length % 3 = 1 then "0"
      else if 3 - s.length % 3 = 2 then "00" else "" : String).data
        = List.replicate ((3 - s.length % 3) % 3) '0' := pad_prefix_data s.length
  have hAdata : ((if 3 - s.length % 3 = 1 then "0"
      else if 3 - s.length % 3 = 2 then "00" else "") ++ s).data
        = List.replicate ((3 - s.length % 3) % 3) '0' ++ s.data := by
    rw [String.data_append, hpd]
  have hslen : s.length = s.data.length := rfl
  have hAlen : (List.replicate ((3 - s.length % 3) % 3) '0' ++ s.data).length % 3 = 0 := by
    simp only [List.length_append, List.length_replicate]
    omega
  have hsplit : (split_number_to_buckets_of_3_digits s).1
      = (chunk3 (((if 3 - s.length % 3 = 1 then "0"
          else if 3 - s.length % 3 = 2 then "00" else "") ++ s).data)).map String.mk := rfl
  rw [hAdata] at hsplit
  refine ⟨rfl, ?_, ?_, ?_⟩
  · rw [hsplit, List.length_map, chunk3_length _ hAlen]
    simp only [List.length_append, List.length_replicate]
    omega
  · intro b hbmem
    rw [hsplit] at hbmem
    obtain ⟨c, hc, rfl⟩ := List.mem_map.mp hbmem
    exact chunk3_mem_length _ hAlen c hc
  · rw [hsplit, List.map_map]
    have hid : (String.data ∘ String.mk) = id := rfl
    rw [hid, List.map_id, chunk3_flatten]

/-- C6, witness: the 4-digit string `"1234"`. -/
theorem C6_grouper_witness :
    (split_number_to_buckets_of_3_digits "1234").2
        = (split_number_to_buckets_of_3_digits "1234").1.length ∧
    (split_number_to_buckets_of_3_digits "1234").1.length = (("1234" : String).length + 2) / 3 ∧
    (∀ b ∈ (split_number_to_buckets_of_3_digits "1234").1, b.length = 3) ∧
    ((split_number_to_buckets_of_3_digits "1234").1.map String.data).flatten
        = List.replicate ((3 - ("1234" : String).length % 3) % 3) '0' ++ ("1234" : String).data :=
  C6_grouper "1234" (by decide) (by decide)

/-- C7: any input made only of `'0'` and `','` characters (including `"0"`
and `""`) sanitizes to the empty string, so `set_number_in_digits` raises the
`InvalidNumber` error and the constructor produces no object. -/
theorem C7_all_zeros_invalid (s : String) (h : ∀ c ∈ s.data, c = '0' ∨ c = ',')
    (st : SpellState) :
    sanitize s = "" ∧
    set_number_in_digits st s = (st, some number_constraints) ∧
    mk_spell s = none := by
  have hnil : (s.data.filter (fun c => c != ',')).dropWhile (fun c => c == '0') = [] := by
    rw [List.dropWhile_eq_nil_iff]
    intro x hx
    have hx' := List.mem_filter.mp hx
    rcases h x hx'.1 with rfl | rfl
    · rfl
    · exact absurd hx'.2 (by decide)
  have hs : sanitize s = "" := by
    apply String.ext
    show (s.data.filter (fun c => c != ',')).dropWhile (fun c => c == '0') = ("" : String).data
    rw [hnil]
  have hinv : is_valid_number (sanitize s) = false := by rw [hs]; rfl
  refine ⟨hs, set_number_invalid st s hinv, ?_⟩
  simp [mk_spell, set_number_invalid _ _ hinv]

/-- C7, witness: the input `"0"` with an arbitrary prior state. -/
theorem C7_all_zeros_invalid_witness :
    sanitize "0" = "" ∧
    set_number_in_digits ⟨"42", "w", "x"⟩ "0" = (⟨"42", "w", "x"⟩, some number_constraints) ∧
    mk_spell "0" = none :=
  C7_all_zeros_invalid "0" (by decide) ⟨"42", "w", "x"⟩

/-- C8: sanitization is insensitive to commas — sanitizing a string equals
sanitizing the same string with every `','` deleted (order of the other
characters preserved); in particular `"1,234,567"` and `"1234567"` sanitize
to the same digit string. -/
theorem C8_comma_stripping (s : String) :
    sanitize s = sanitize (String.mk (s.data.filter (fun c => c != ','))) ∧
    sanitize "1,234,567" = sanitize "1234567" := by
  refine ⟨?_, rfl⟩
  apply String.ext
  show (s.data.filter (fun c => c != ',')).dropWhile (fun c => c == '0')
      = (((String.mk (s.data.filter (fun c => c != ','))).data.filter
          (fun c => c != ',')).dropWhile (fun c => c == '0'))
  rw [show (String.mk (s.data.filter (fun c => c != ','))).data
      = s.data.filter (fun c => c != ',') from rfl]
  rw [List.filter_eq_self.mpr (fun a ha => (List.mem_filter.mp ha).2)]

/-- C9: a successful `set_number_in_digits` call modifies only
`_number_in_digits` (to the sanitized input); both word members keep their
previous values and no error is raised. -/
theorem C9_set_frame (st : SpellState) (s : String)
    (h : is_valid_number (sanitize s) = true) :
    (set_number_in_digits st s).1.number_in_words = st.number_in_words ∧
    (set_number_in_digits st s).1.number_in_words_and_digits
        = st.number_in_words_and_digits ∧
    (set_number_in_digits st s).1.number_in_digits = sanitize s ∧
    (set_number_in_digits st s).2 = none := by
  rw [set_number_valid st s h]
  exact ⟨rfl, rfl, rfl, rfl⟩

/-- C9, witness: resetting a state holding previous results to `"42"`. -/
theorem C9_set_frame_witness :
    (set_number_in_digits ⟨"1", "one ", "1 "⟩ "42").1.number_in_words = "one " ∧
    (set_number_in_digits ⟨"1", "one ", "1 "⟩ "42").1.number_in_words_and_digits = "1 " ∧
    (set_number_in_digits ⟨"1", "one ", "1 "⟩ "42").1.number_in_digits = sanitize "42" ∧
    (set_number_in_digits ⟨"1", "one ", "1 "⟩ "42").2 = none :=
  C9_set_frame ⟨"1", "one ", "1 "⟩ "42" (by decide)

/-- C10: when the sanitized input fails validation, `set_number_in_digits`
raises the `InvalidNumber` error and the whole object state — in particular
`_number_in_digits` — is unchanged. -/
theorem C10_failed_set_frame (st : SpellState) (s : String)
    (h : is_valid_number (sanitize s) = false) :
    set_number_in_digits st s = (st, some number_constraints) :=
  set_number_invalid st s h

/-- C10, witness: the invalid input `"12x"` leaves the state `⟨"5","a","b"⟩`
untouched. -/
theorem C10_failed_set_frame_witness :
    set_number_in_digits ⟨"5", "a", "b"⟩ "12x" = (⟨"5", "a", "b"⟩, some number_constraints) :=
  C10_failed_set_frame ⟨"5", "a", "b"⟩ "12x" (by decide)
